import Mathlib

/-!
Verification of the Session Controller behaviour of `AutoByteGUI.py`.

The Python program is a tkinter GUI that downloads a PowerShell script,
prepends a fixed Read-Host override shim, writes it to a temp file, launches
`powershell.exe` on it with piped stdio, and forwards output lines to a
scrolled-text console.  The module-level functions `run_script`, `send_input`,
`stop_process` and the nested `reader` thread body are embedded below as pure
Lean functions over explicit state: the OS-supplied parts (the HTTP fetch
result, the temp-file name handed out by `tempfile.NamedTemporaryFile`, the
success or failure of `subprocess.Popen`, and the success or failure of a
pipe write) are parameters, and the observable effects (log lines appended to
the output box, the temp file written, the process launched, the state of the
UI widgets, an exception escaping the function) are returned explicitly.
-/

namespace AutoByte

/-- Result of `current_proc.poll()` for an existing process: `running` models
`poll() is None`, `exited code` models a returned exit code.  The global
`current_proc` itself is modelled as `Option Poll`, with `none` for the
initial `current_proc = None`. -/
inductive Poll
  | running
  | exited (code : Int)
deriving DecidableEq

/-- The truth value of the Python guard `current_proc and current_proc.poll() is None`
used by both `send_input` and `stop_process`. -/
def procIsActive : Option Poll → Bool
  | some Poll.running => true
  | _ => false

/-- State of the process stdin pipe: `ready buf` is a writable pipe whose
flushed contents so far are `buf`; `broken e` is a pipe whose next write
raises an exception rendered as `e` (e.g. a broken pipe after process exit). -/
inductive PipeState
  | ready (buf : List String)
  | broken (e : String)
deriving DecidableEq

/-- One `stdin.write` followed by `stdin.flush`, as performed by `send_input`:
on a ready pipe the string is appended to the flushed contents, on a broken
pipe the exception text is raised (returned in `Except.error`). -/
def pipeWrite : PipeState → String → Except String PipeState
  | PipeState.ready buf, s => Except.ok (PipeState.ready (buf ++ [s]))
  | PipeState.broken e, _ => Except.error e

/-- Observable result of one `send_input` call: the stdin pipe afterwards,
the lines appended to the output box by `write_log`, and the content of the
input entry widget after the trailing `input_entry.delete(0, tk.END)`.
The function is total: every exception the write can raise is caught by the
`try/except` inside `send_input`, so no exception field is needed. -/
structure SendResult where
  pipe : PipeState
  logLines : List String
  entryText : String
deriving DecidableEq

/-- Embedding of `send_input` (AutoByteGUI.py lines 50-60).  `text` is the
content read from the input entry; `proc` is the global `current_proc`;
`pipe` is the state of that process's stdin.  Mirrors the source exactly: if
the guard `current_proc and current_proc.poll() is None` holds, it writes
`text + '\n'` and flushes, logging `"> " ++ text` on success and
`"[Send error] " ++ e` if the write raises; otherwise it does nothing; in
every branch the entry is cleared last. -/
def send_input (proc : Option Poll) (pipe : PipeState) (text : String) : SendResult :=
  if procIsActive proc then
    match pipeWrite pipe (text ++ "\n") with
    | Except.ok p => { pipe := p, logLines := ["> " ++ text], entryText := "" }
    | Except.error e => { pipe := pipe, logLines := ["[Send error] " ++ e], entryText := "" }
  else
    { pipe := pipe, logLines := [], entryText := "" }

/-- Python `str.isspace`-style test for the ASCII whitespace characters that
`str.rstrip()` (no argument) removes. -/
def pyIsSpace (c : Char) : Bool :=
  c = ' ' || c = '\t' || c = '\n' || c = '\x0d' || c = '\x0b' || c = '\x0c'

/-- Embedding of Python `line.rstrip()`: removes every trailing whitespace
character, not only the line terminator. -/
def rstrip (s : String) : String :=
  String.mk ((s.data.reverse.dropWhile pyIsSpace).reverse)

/-- Events produced by the controller on OS resources and widgets:
a line handed to the display sink (`write_log`), a `current_proc.kill()`,
an `os.remove` of a temp file path, and a `reset_ui()` call. -/
inductive Ev
  | sinkLine (s : String)
  | kill
  | removeTemp (path : String)
  | resetUi
deriving DecidableEq

/-- The terminal status line the reader thread logs. -/
def completedMsg (code : Int) : String :=
  "[Completed] Exit code: " ++ toString code

/-- Embedding of the nested `reader` thread body (AutoByteGUI.py lines 99-105)
as the sequence of events it performs: it forwards each line of the process's
merged stdout, rstripped, to the display sink in iteration order; when the
stream closes it waits for the exit code, removes the temp file, logs the
terminal status, and resets the UI.  `stdoutLines` are the lines the process
emitted (with their terminators, as Python file iteration yields them). -/
def readerEvents (stdoutLines : List String) (code : Int) (tmpName : String) : List Ev :=
  stdoutLines.map (fun l => Ev.sinkLine (rstrip l))
    ++ [Ev.removeTemp tmpName, Ev.sinkLine (completedMsg code), Ev.resetUi]

/-- Embedding of `stop_process` (AutoByteGUI.py lines 43-48) as the events it
performs: if the guard `current_proc and current_proc.poll() is None` holds it
kills the process, logs `"[Stopped]"` and resets the UI; otherwise nothing. -/
def stop_process (proc : Option Poll) : List Ev :=
  if procIsActive proc then [Ev.kill, Ev.sinkLine "[Stopped]", Ev.resetUi] else []

/-- Projection of an event to the sink line it carries, if any. -/
def evLine : Ev → Option String
  | Ev.sinkLine s => some s
  | _ => none

/-- The lines the display sink receives from a list of events, in order. -/
def sinkLinesOf (evs : List Ev) : List String :=
  evs.filterMap evLine

/-- Test for an `os.remove` of the path `tmp`. -/
def isRemove (tmp : String) : Ev → Bool
  | Ev.removeTemp p => p == tmp
  | _ => false

/-- Number of times the temp file `tmp` is deleted in an event trace. -/
def removeCount (tmp : String) (evs : List Ev) : Nat :=
  evs.countP (isRemove tmp)

/-- An arbitrary interleaving of two event sequences: the real program runs
the reader thread concurrently with UI callbacks such as `stop_process`, so
every merge of the two event lists that preserves each list's own order is a
possible execution. -/
inductive Interleave : List Ev → List Ev → List Ev → Prop
  | nil : Interleave [] [] []
  | left {x : Ev} {xs ys zs : List Ev} :
      Interleave xs ys zs → Interleave (x :: xs) ys (x :: zs)
  | right {y : Ev} {xs ys zs : List Ev} :
      Interleave xs ys zs → Interleave xs (y :: ys) (y :: zs)

/-- The fixed Read-Host override shim `PS_OVERRIDE` (AutoByteGUI.py lines
23-33), a raw Python string starting and ending with a newline. -/
def PS_OVERRIDE : String :=
  "\n# Redirect Read-Host to stdin pipe\nif (Get-Command Read-Host -ErrorAction SilentlyContinue) \x7b\n    Remove-Item Function:\\Read-Host -ErrorAction SilentlyContinue\n\x7d\nfunction Read-Host \x7b\n    param([string]$prompt=\"\")\n    Write-Host $prompt -NoNewline\n    return [Console]::In.ReadLine()\n\x7d\n"

/-- Result of the `requests.get(url, timeout=30)` / `resp.raise_for_status()`
pair inside `run_script`: either the fetched body text, or the exception text
of a network error or non-success HTTP status. -/
inductive FetchResult
  | ok (body : String)
  | err (e : String)
deriving DecidableEq

/-- The process-creation request `run_script` hands to `subprocess.Popen`:
the argv list and the stdio configuration (`stdin=PIPE`, `stdout=PIPE`,
`stderr=STDOUT`). -/
structure LaunchSpec where
  argv : List String
  stdinIsPipe : Bool
  stdoutIsPipe : Bool
  stderrMerged : Bool
deriving DecidableEq

/-- The argv `run_script` passes to `subprocess.Popen` (line 94). -/
def powershellArgv (tmpName : String) : List String :=
  ["powershell.exe", "-NoProfile", "-ExecutionPolicy", "Bypass", "-File", tmpName]

/-- Observable outcome of one `run_script` call, when it returns or when the
`subprocess.Popen` call raises: the final state of the start buttons, stop
button and status label; the log lines appended; the temp file written (path
and full content), the process creation performed, the value of the global
`current_proc` afterwards, and the exception escaping the call if any. -/
structure RunOutcome where
  startEnabled : Bool
  stopEnabled : Bool
  statusText : String
  logLines : List String
  tempWritten : Option (String × String)
  launched : Option LaunchSpec
  procAfter : Option Poll
  raised : Option String
deriving DecidableEq

/-- Embedding of `run_script` (AutoByteGUI.py lines 68-106).  `prev` is the
global `current_proc` before the call; `fetch` is the outcome of the HTTP
fetch; `tmpName` is the fresh path `tempfile.NamedTemporaryFile` hands out;
`popen` is whether `subprocess.Popen` succeeds or raises.  The function never
reads `prev` to decide anything — exactly as the source, which only assigns
the global.  On fetch failure the `except` branch logs the error, calls
`reset_ui()` and returns; on success it writes `PS_OVERRIDE + '\n' + body` to
the temp file and calls `Popen`, whose failure is NOT caught and escapes the
function with the UI still in its running configuration. -/
def run_script (prev : Option Poll) (fetch : FetchResult) (tmpName : String)
    (popen : Except String Unit) (url desc : String) : RunOutcome :=
  let headerLog := [">▶ " ++ desc, "Downloading from " ++ url]
  match fetch with
  | FetchResult.err e =>
      { startEnabled := true, stopEnabled := false, statusText := "Ready",
        logLines := headerLog ++ ["[Download error] " ++ e],
        tempWritten := none, launched := none, procAfter := prev, raised := none }
  | FetchResult.ok body =>
      let content := PS_OVERRIDE ++ "\n" ++ body
      let okLog := headerLog ++ ["Saved to " ++ tmpName]
      match popen with
      | Except.ok _ =>
          { startEnabled := false, stopEnabled := true, statusText := "Running: " ++ desc,
            logLines := okLog,
            tempWritten := some (tmpName, content),
            launched := some { argv := powershellArgv tmpName, stdinIsPipe := true,
                               stdoutIsPipe := true, stderrMerged := true },
            procAfter := some Poll.running, raised := none }
      | Except.error e =>
          { startEnabled := false, stopEnabled := true, statusText := "Running: " ++ desc,
            logLines := okLog,
            tempWritten := some (tmpName, content),
            launched := none, procAfter := prev, raised := some e }

/-- Removing exactly one trailing line terminator, following the words of the
spec claim that sink lines are the process's lines "unmodified (apart from
the line terminator)"; written for comparison against the source's `rstrip`. -/
def dropLineTerm (s : String) : String :=
  match s.data.reverse with
  | '\n' :: '\x0d' :: rest => String.mk rest.reverse
  | '\n' :: rest => String.mk rest.reverse
  | _ => s

/-- Helper: the sink lines produced by one reader run are the rstripped
emitted lines in order, then the terminal status line. -/
theorem sinkLines_reader_eq (stdoutLines : List String) (code : Int)
    (tmpName : String) :
    sinkLinesOf (readerEvents stdoutLines code tmpName)
      = stdoutLines.map rstrip ++ [completedMsg code] := by
  unfold readerEvents sinkLinesOf
  rw [List.filterMap_append]
  congr 1
  · induction stdoutLines with
    | nil => rfl
    | cons l ls ih => simpa [evLine] using ih

/-- C3: for every sequence of lines the process emits on its merged
stdout/stderr stream, the display sink receives exactly one line per emitted
line, in emission order — the sink sequence is the pointwise image of the
emitted sequence (each line rstripped), followed only by the single terminal
status line.  No reordering, interleaving or batching across lines. -/
theorem reader_forwards_lines_in_order (stdoutLines : List String) (code : Int)
    (tmpName : String) :
    sinkLinesOf (readerEvents stdoutLines code tmpName)
      = stdoutLines.map rstrip ++ [completedMsg code] :=
  sinkLines_reader_eq stdoutLines code tmpName

/-- C10: every invocation of `send_input` — whether a Session is running,
idle, already exited, or the stdin write fails — leaves the input entry
cleared to the empty string. -/
theorem send_input_clears_entry (proc : Option Poll) (pipe : PipeState)
    (text : String) :
    (send_input proc pipe text).entryText = "" := by
  unfold send_input
  by_cases h : procIsActive proc = true
  · rw [if_pos h]
    cases hw : pipeWrite pipe (text ++ "\n") <;> simp
  · rw [if_neg h]

/-- C5: with a Running session, `send_input` writes exactly `text ++ "\n"`
to the process stdin pipe and flushes it, logging the echo line; if the write
raises (broken pipe), the exception is caught and reported to the display
sink as a `[Send error]` log line, the call still returns normally (the
embedding is a total function into `SendResult`, with no exception channel),
and nothing is written to the pipe. -/
theorem send_input_running_writes_text_newline (buf : List String)
    (e text : String) :
    send_input (some Poll.running) (PipeState.ready buf) text
      = { pipe := PipeState.ready (buf ++ [text ++ "\n"]),
          logLines := ["> " ++ text], entryText := "" }
    ∧ send_input (some Poll.running) (PipeState.broken e) text
      = { pipe := PipeState.broken e,
          logLines := ["[Send error] " ++ e], entryText := "" } :=
  ⟨rfl, rfl⟩

/-- C4 (amended): `send_input` invoked while no Session is active (the global
process reference is `None`, or the process has already exited) performs no
OS-level write — the stdin pipe is untouched, not even a write attempt is
made — and reports nothing: the log gains no line, so no `NotRunning` error
is surfaced anywhere; the only effect is clearing the entry field. -/
theorem send_input_idle_no_write_no_report (proc : Option Poll)
    (pipe : PipeState) (text : String) (h : procIsActive proc = false) :
    send_input proc pipe text
      = { pipe := pipe, logLines := [], entryText := "" } := by
  unfold send_input
  rw [h]
  rfl

/-- Witness for `send_input_idle_no_write_no_report` at the concrete idle
state `current_proc = None` with input `"dir"`. -/
theorem send_input_idle_no_write_no_report_witness :
    procIsActive none = false
    ∧ send_input none (PipeState.ready []) "dir"
        = { pipe := PipeState.ready [], logLines := [], entryText := "" } :=
  ⟨rfl, send_input_idle_no_write_no_report none (PipeState.ready []) "dir" rfl⟩

/-- C4 counterexample: the claim says `SendInput` while idle "returns the
NotRunning error".  In the code every error is observable only as a log line
reported to the display sink, and the idle branch of `send_input` logs
nothing at all (and touches no pipe): at the concrete idle state the call's
entire observable effect is the cleared entry, with an empty log — there is
no NotRunning report. -/
theorem send_input_idle_reports_nothing :
    (send_input none (PipeState.ready []) "hello").logLines = []
    ∧ (send_input none (PipeState.ready []) "hello").pipe = PipeState.ready []
    ∧ (send_input (some (Poll.exited 0)) (PipeState.broken "gone") "hello").logLines
        = [] :=
  ⟨rfl, rfl, rfl⟩

/-- C6: when the fetch fails (network error or `raise_for_status` on a
non-success status), `run_script` reports the failure to the display sink as
a `[Download error]` log line, creates no temp file, launches no process,
raises nothing, resets the UI (start buttons re-enabled, stop disabled,
status `Ready`), and leaves the global process reference exactly as it was —
a previously idle controller stays Idle and usable. -/
theorem run_script_fetch_error_resets (prev : Option Poll) (e tmpName url desc : String)
    (popen : Except String Unit) :
    run_script prev (FetchResult.err e) tmpName popen url desc
      = { startEnabled := true, stopEnabled := false, statusText := "Ready",
          logLines := [">▶ " ++ desc, "Downloading from " ++ url,
                       "[Download error] " ++ e],
          tempWritten := none, launched := none, procAfter := prev,
          raised := none } :=
  rfl

/-- C9: on a successful fetch, `run_script` writes to the fresh temp file
exactly the fixed shim `PS_OVERRIDE` followed by a newline followed by the
fetched body, and launches `powershell.exe` with `-NoProfile`,
`-ExecutionPolicy Bypass`, `-File <temp path>` — the non-interactive,
policy-unrestricted, file-driven mode — with stdin and stdout as pipes and
stderr merged into stdout. -/
theorem run_script_writes_shim_and_launches (prev : Option Poll)
    (body tmpName url desc : String) :
    (run_script prev (FetchResult.ok body) tmpName (Except.ok ()) url desc).tempWritten
      = some (tmpName, PS_OVERRIDE ++ "\n" ++ body)
    ∧ (run_script prev (FetchResult.ok body) tmpName (Except.ok ()) url desc).launched
      = some { argv := ["powershell.exe", "-NoProfile", "-ExecutionPolicy",
                        "Bypass", "-File", tmpName],
               stdinIsPipe := true, stdoutIsPipe := true, stderrMerged := true } :=
  ⟨rfl, rfl⟩

/-- C1 counterexample: invoking `run_script` a second time while the first
Session's process is still running (the global process reference polls as
running) does NOT return an AlreadyRunning error — the call performs the
fetch, writes a new temp file, launches a new `powershell.exe` process and
overwrites the global process reference; its log contains only the normal
start lines, no error of any kind. -/
theorem second_start_launches_new_process :
    (run_script (some Poll.running) (FetchResult.ok "Write-Output 1") "tmp2.ps1"
        (Except.ok ()) "u" "d").launched
      = some { argv := ["powershell.exe", "-NoProfile", "-ExecutionPolicy",
                        "Bypass", "-File", "tmp2.ps1"],
               stdinIsPipe := true, stdoutIsPipe := true, stderrMerged := true }
    ∧ (run_script (some Poll.running) (FetchResult.ok "Write-Output 1") "tmp2.ps1"
        (Except.ok ()) "u" "d").tempWritten
      = some ("tmp2.ps1", PS_OVERRIDE ++ "\n" ++ "Write-Output 1")
    ∧ (run_script (some Poll.running) (FetchResult.ok "Write-Output 1") "tmp2.ps1"
        (Except.ok ()) "u" "d").logLines
      = [">▶ d", "Downloading from u", "Saved to tmp2.ps1"] :=
  ⟨rfl, rfl, rfl⟩

/-- C1 (amended): the controller itself performs no AlreadyRunning check at
all — the observable behaviour of `run_script` (log, temp file, launch, UI
state, exception) is identical whatever the prior process state, so a second
Start while Running proceeds exactly as from Idle: it writes a fresh temp
file, launches a fresh process and overwrites the global process reference
with the new one.  Double-start is prevented only on the UI side: the call
disables the start buttons on entry (`startEnabled = false` whenever a
process was launched or the launch raised) and they come back only via
`reset_ui` at terminal state or fetch failure. -/
theorem run_script_has_no_running_guard (prev prevAlt : Option Poll)
    (fetch : FetchResult) (tmpName : String) (popen : Except String Unit)
    (url desc body : String) :
    ((run_script prev fetch tmpName popen url desc).logLines
        = (run_script prevAlt fetch tmpName popen url desc).logLines
      ∧ (run_script prev fetch tmpName popen url desc).tempWritten
        = (run_script prevAlt fetch tmpName popen url desc).tempWritten
      ∧ (run_script prev fetch tmpName popen url desc).launched
        = (run_script prevAlt fetch tmpName popen url desc).launched
      ∧ (run_script prev fetch tmpName popen url desc).startEnabled
        = (run_script prevAlt fetch tmpName popen url desc).startEnabled
      ∧ (run_script prev fetch tmpName popen url desc).raised
        = (run_script prevAlt fetch tmpName popen url desc).raised)
    ∧ (run_script (some Poll.running) (FetchResult.ok body) tmpName
        (Except.ok ()) url desc).launched ≠ none
    ∧ (run_script (some Poll.running) (FetchResult.ok body) tmpName
        (Except.ok ()) url desc).procAfter = some Poll.running
    ∧ (run_script (some Poll.running) (FetchResult.ok body) tmpName
        (Except.ok ()) url desc).startEnabled = false := by
  refine ⟨?_, by simp [run_script], rfl, rfl⟩
  cases fetch <;> cases popen <;> exact ⟨rfl, rfl, rfl, rfl, rfl⟩

/-- C7 counterexample: a LaunchError is NOT surfaced to the display sink and
NOT caught: when `subprocess.Popen` raises (interpreter missing), the
exception escapes `run_script` uncaught, the log contains only the normal
start lines (no error report), the start buttons stay disabled and the stop
button enabled (no `reset_ui`), and the freshly written temp file is left
behind. -/
theorem launch_error_escapes_uncaught :
    (run_script none (FetchResult.ok "Write-Output 1") "t.ps1"
        (Except.error "FileNotFoundError") "u" "d").raised
      = some "FileNotFoundError"
    ∧ (run_script none (FetchResult.ok "Write-Output 1") "t.ps1"
        (Except.error "FileNotFoundError") "u" "d").logLines
      = [">▶ d", "Downloading from u", "Saved to t.ps1"]
    ∧ (run_script none (FetchResult.ok "Write-Output 1") "t.ps1"
        (Except.error "FileNotFoundError") "u" "d").startEnabled = false
    ∧ (run_script none (FetchResult.ok "Write-Output 1") "t.ps1"
        (Except.error "FileNotFoundError") "u" "d").tempWritten ≠ none :=
  ⟨rfl, rfl, rfl, by simp [run_script]⟩

/-- C7 (amended): fetch errors and send errors are caught and surfaced to
the display sink as log lines with no exception escaping, but a launch error
is the exception to the taxonomy's rule: `subprocess.Popen` is not wrapped in
any handler, so its failure propagates out of `run_script` as an uncaught
exception, is never reported to the sink, and leaves the start controls
disabled. -/
theorem errors_surfaced_except_launch (prev : Option Poll)
    (e body tmpName url desc text : String) (popen : Except String Unit) :
    ((run_script prev (FetchResult.err e) tmpName popen url desc).raised = none
      ∧ ("[Download error] " ++ e)
          ∈ (run_script prev (FetchResult.err e) tmpName popen url desc).logLines)
    ∧ (send_input (some Poll.running) (PipeState.broken e) text).logLines
        = ["[Send error] " ++ e]
    ∧ (run_script prev (FetchResult.ok body) tmpName (Except.error e) url desc).raised
        = some e
    ∧ (run_script prev (FetchResult.ok body) tmpName (Except.error e) url desc).logLines
        = [">▶ " ++ desc, "Downloading from " ++ url, "Saved to " ++ tmpName] :=
  ⟨⟨rfl, by simp [run_script]⟩, rfl, rfl, rfl⟩

/-- C8 counterexample: sink lines are not the emitted lines verbatim modulo
the terminator — `rstrip` also removes trailing spaces and tabs.  For the
emitted line `"A \n"` (content `"A "` plus terminator) the sink receives
`"A"`, not `"A "`. -/
theorem sink_line_not_verbatim :
    sinkLinesOf (readerEvents ["A \n"] 0 "t.ps1")
        ≠ ["A \n"].map dropLineTerm ++ [completedMsg 0]
    ∧ rstrip "A \n" = "A"
    ∧ dropLineTerm "A \n" = "A " := by
  refine ⟨?_, by decide, by decide⟩
  decide

/-- C8 (amended): each sink line is the emitted line with ALL trailing
whitespace removed (spaces, tabs, carriage returns and the line feed), not
just the line terminator, and is otherwise unmodified: the delivered text is
the prefix of the emitted line that remains after dropping its maximal
trailing run of whitespace characters. -/
theorem sink_lines_are_rstripped (stdoutLines : List String) (code : Int)
    (tmpName : String) :
    sinkLinesOf (readerEvents stdoutLines code tmpName)
      = stdoutLines.map rstrip ++ [completedMsg code]
    ∧ ∀ l : String, ∃ ws : List Char,
        l.data = (rstrip l).data ++ ws ∧ ws.all pyIsSpace := by
  constructor
  · exact sinkLines_reader_eq stdoutLines code tmpName
  · intro l
    refine ⟨(l.data.reverse.takeWhile pyIsSpace).reverse, ?_, ?_⟩
    · conv_lhs => rw [← l.data.reverse_reverse,
        ← List.takeWhile_append_dropWhile (p := pyIsSpace) (l := l.data.reverse)]
      rw [List.reverse_append]
      rfl
    · rw [List.all_eq_true]
      intro c hc
      exact List.mem_takeWhile_imp (List.mem_reverse.mp hc)

/-- Helper: an interleaving carries each event of the two sides exactly once,
so the number of events satisfying a predicate is the sum over the sides. -/
theorem Interleave.countP_eq (p : Ev → Bool) {xs ys zs : List Ev}
    (h : Interleave xs ys zs) :
    zs.countP p = xs.countP p + ys.countP p := by
  induction h with
  | nil => rfl
  | @left x xs ys zs h ih =>
      rw [List.countP_cons, List.countP_cons, ih]
      cases hp : p x
      · simp
      · simp
        omega
  | @right y xs ys zs h ih =>
      rw [List.countP_cons, List.countP_cons, ih]
      cases hp : p y
      · simp
      · simp
        omega

/-- Helper: an interleaving preserves the relative order of each side — the
left side is a sublist of the merge. -/
theorem Interleave.sublist_left {xs ys zs : List Ev}
    (h : Interleave xs ys zs) : List.Sublist xs zs := by
  induction h with
  | nil => exact List.Sublist.slnil
  | left h ih => exact List.Sublist.cons₂ _ ih
  | right h ih => exact List.Sublist.cons _ ih

/-- Helper: running one whole side before the other is one interleaving. -/
theorem interleave_append_right (xs ys : List Ev) : Interleave xs ys (ys ++ xs) := by
  induction ys with
  | nil =>
      simp only [List.nil_append]
      induction xs with
      | nil => exact Interleave.nil
      | cons x xs ih => exact Interleave.left ih
  | cons y ys ih => exact Interleave.right ih

/-- Helper: the reader run deletes the temp file exactly once. -/
theorem countP_remove_reader (stdoutLines : List String) (code : Int)
    (tmp : String) :
    (readerEvents stdoutLines code tmp).countP (isRemove tmp) = 1 := by
  unfold readerEvents
  rw [List.countP_append]
  have h1 : (stdoutLines.map fun l => Ev.sinkLine (rstrip l)).countP (isRemove tmp)
      = 0 := by
    induction stdoutLines with
    | nil => rfl
    | cons l ls ih => simp [List.countP_cons, isRemove, ih]
  rw [h1]
  simp [List.countP_cons, isRemove]

/-- Helper: `stop_process` never deletes the temp file — it only kills the
process, logs and resets the UI. -/
theorem countP_remove_stop (proc : Option Poll) (tmp : String) :
    (stop_process proc).countP (isRemove tmp) = 0 := by
  unfold stop_process
  by_cases h : procIsActive proc = true
  · rw [if_pos h]; rfl
  · rw [if_neg h]; rfl

/-- C2: in every interleaving of the reader thread's events with a
`stop_process` call — including the race where Stop kills the process at
nearly the same moment it exits naturally — the temp file is deleted exactly
once, and that single deletion happens before the terminal status line
reaches the display sink.  Deletion lives only in the reader, which performs
it once after the stream closes, so no schedule can double-delete. -/
theorem temp_file_deleted_exactly_once (stdoutLines : List String) (code : Int)
    (tmpName : String) (proc : Option Poll) (tr : List Ev)
    (h : Interleave (readerEvents stdoutLines code tmpName) (stop_process proc) tr) :
    removeCount tmpName tr = 1
    ∧ List.Sublist [Ev.removeTemp tmpName, Ev.sinkLine (completedMsg code)] tr := by
  constructor
  · unfold removeCount
    rw [h.countP_eq (isRemove tmpName), countP_remove_reader, countP_remove_stop]
  · have hsub : List.Sublist [Ev.removeTemp tmpName, Ev.sinkLine (completedMsg code)]
        (readerEvents stdoutLines code tmpName) := by
      unfold readerEvents
      refine List.Sublist.trans ?_ (List.sublist_append_right _ _)
      exact List.Sublist.cons₂ _ (List.Sublist.cons₂ _
        (List.Sublist.cons _ List.Sublist.slnil))
    exact hsub.trans h.sublist_left

/-- Witness for `temp_file_deleted_exactly_once`: the schedule in which the
Stop click runs first (kill, log, reset) and then the reader drains one line
and cleans up; the trace contains exactly one deletion, before the terminal
status line. -/
theorem temp_file_deleted_exactly_once_witness :
    Interleave (readerEvents ["ok\n"] 0 "t.ps1") (stop_process (some Poll.running))
        (stop_process (some Poll.running) ++ readerEvents ["ok\n"] 0 "t.ps1")
    ∧ (removeCount "t.ps1"
          (stop_process (some Poll.running) ++ readerEvents ["ok\n"] 0 "t.ps1") = 1
        ∧ List.Sublist [Ev.removeTemp "t.ps1", Ev.sinkLine (completedMsg 0)]
          (stop_process (some Poll.running) ++ readerEvents ["ok\n"] 0 "t.ps1")) :=
  ⟨interleave_append_right _ _,
   temp_file_deleted_exactly_once ["ok\n"] 0 "t.ps1" (some Poll.running) _
     (interleave_append_right _ _)⟩

end AutoByte
